import Mathlib

/-!
# Verification of the Voreen RenderPort / PortGroup subsystem

Shallow embedding of `src/core/ports/renderport.cpp` (Voreen): the
RenderPort size-negotiation and render-target lifecycle protocol, and the
PortGroup multi-target helper.

Modelling conventions:
* The port graph is a `GState`: a list of port objects indexed by position
  (a C++ `Port*` becomes a `Nat` index), plus an event log.
* Calls that leave this translation unit (processor callbacks
  `sizeOriginChanged` / `portResized` / `invalidate`, the logging macros
  `LERROR` / `LWARNING`, and the `glDrawBuffers` binding count) are recorded
  as events; they do not modify port state in `renderport.cpp` itself.
* `dynamic_cast<RenderPort*>` failing is the `PortObj.generic` case;
  `static_cast<RenderPort*>` on a non-RenderPort is undefined behaviour in
  the source and is modelled as a no-op lookup failure.
* The recursive graph walks (`hasValidResult`, `getRenderTarget`,
  `getSizeOrigin`, `sizeOriginChanged`) take an explicit fuel argument;
  theorems show the results are fuel-independent above an explicit bound.
* GPU-side state (FBO binding, viewport, texture upload) is out of scope;
  `RenderTarget.active` models the bound/unbound bit of a target and
  texture contents are carried symbolically for the readback path.
-/

namespace VoreenRP

/-- `tgt::ivec2`, compared componentwise. -/
abbrev IVec2 := Int × Int

/-- Pixel texture format tag (`GL_RGBA` vs. anything else). -/
inductive TexFormat where
  | rgba
  | nonRgba
  deriving DecidableEq, Repr

/-- An RGBA quadruple of channels. -/
structure Col4 (α : Type) where
  r : α
  g : α
  b : α
  a : α
  deriving DecidableEq, Repr

/-- Native pixel data of a color texture: 8-bit (`GL_UNSIGNED_BYTE`),
16-bit (`GL_UNSIGNED_SHORT`), floating point (`GL_FLOAT`, channels modelled
as exact rationals), or an unknown data type. -/
inductive TexData where
  | bytes (pix : List (Col4 Nat))
  | shorts (pix : List (Col4 Nat))
  | floats (pix : List (Col4 Rat))
  | unknownType
  deriving DecidableEq

/-- A color texture: format tag plus native pixel data. -/
structure Texture where
  format : TexFormat
  data : TexData
  deriving DecidableEq

/-- `RenderTarget`: GPU color+depth surface owned by an outport.
`active` is the bound-as-draw-destination bit, `numUpdates` the staleness
counter bumped by `validateResult`. -/
structure RenderTarget where
  size : IVec2
  colorFormat : Int
  depthFormat : Int
  numUpdates : Nat
  active : Bool
  colorTex : Option Texture
  deriving DecidableEq

/-- The `RenderPort` fields from the source: direction, ordered connection
list (`connectedPorts_`), owned target (outports), `validResult_`,
`size_`, the opaque `sizeOrigin_` token (a raw address in the source,
modelled as `Option Nat`), and the base-class multiplicity flag. -/
structure RenderPort where
  isOutport : Bool
  connected : List Nat
  renderTarget : Option RenderTarget
  validResult : Bool
  size : IVec2
  sizeOrigin : Option Nat
  allowMultiple : Bool
  deriving DecidableEq

/-- A port object in the graph: a render port, or a port of some other
`Port` subclass (the `dynamic_cast<RenderPort*>` failure case). -/
inductive PortObj where
  | render (p : RenderPort)
  | generic
  deriving DecidableEq

/-- Identifiers for the `LERROR` / `LWARNING` sites of `renderport.cpp`. -/
inductive ErrId where
  | activateTargetOnInport
  | activateNoTarget
  | deactivateTargetOnInport
  | deactivateNoTarget
  | clearTargetOnInport
  | clearTargetInactive
  | changeFormatOnInport
  | validateResultOnInport
  | validateResultNoTarget
  | invalidateResultOnInport
  | setRenderTargetOnInport
  | resizeInvalidSize
  | connectedToNonRenderPort
  deriving DecidableEq

/-- Observable events: processor callbacks, log output, and the
`glDrawBuffers` count issued by `PortGroup::activateTargets`. -/
inductive Event where
  | sizeOriginChangedNotify (port : Nat)
  | portResizedNotify (port : Nat) (newsize : IVec2)
  | invalidateNotify (port : Nat)
  | logError (e : ErrId)
  | logWarning (e : ErrId)
  | drawBuffersBind (count : Nat)
  deriving DecidableEq

/-- The whole graph state: the port store plus the event log. -/
structure GState where
  ports : List PortObj
  events : List Event
  deriving DecidableEq

/-- Look up port `i` as a render port (`dynamic_cast<RenderPort*>`). -/
def getRP (st : GState) (i : Nat) : Option RenderPort :=
  match st.ports.get? i with
  | some (PortObj.render p) => some p
  | _ => none

/-- Store an updated render port at index `i`. -/
def setRP (st : GState) (i : Nat) (p : RenderPort) : GState :=
  { st with ports := st.ports.set i (PortObj.render p) }

/-- Append an observable event to the log. -/
def emitEv (st : GState) (e : Event) : GState :=
  { st with events := st.events ++ [e] }

/-- Modelled from the spec: the base `Port::isConnected` (the `Port` base
class is not part of the excerpt) — a port is connected iff its connection
list is nonempty. -/
def isConnected (st : GState) (i : Nat) : Bool :=
  match getRP st i with
  | some p => !p.connected.isEmpty
  | none => false

/-- `RenderPort::hasValidResult` (const query, fuel-indexed): an outport
reports `renderTarget_ && validResult_`; an inport delegates to its first
connected port if that is a render port, else `false` (also when
unconnected). -/
def hasValidResult (st : GState) : Nat → Nat → Bool
  | 0, _ => false
  | fuel + 1, i =>
    match getRP st i with
    | none => false
    | some p =>
      if p.isOutport then p.renderTarget.isSome && p.validResult
      else
        match p.connected with
        | [] => false
        | j :: _ =>
          match getRP st j with
          | some _ => hasValidResult st fuel j
          | none => false

/-- `RenderPort::getRenderTarget` (const query, fuel-indexed): an outport
returns its own target; an inport scans its connections for the first
connected outport that is a render port and returns that port's target. -/
def getRenderTarget (st : GState) : Nat → Nat → Option RenderTarget
  | 0, _ => none
  | fuel + 1, i =>
    match getRP st i with
    | none => none
    | some p =>
      if p.isOutport then p.renderTarget
      else
        match p.connected.find? (fun j => ((getRP st j).map RenderPort.isOutport).getD false) with
        | some j => getRenderTarget st fuel j
        | none => none

/-- `RenderPort::hasRenderTarget`. -/
def hasRenderTarget (st : GState) (fuel i : Nat) : Bool :=
  (getRenderTarget st fuel i).isSome

/-- `RenderPort::getSize`: the target's size, or `(0,0)` without one. -/
def getSize (st : GState) (fuel i : Nat) : IVec2 :=
  match getRenderTarget st fuel i with
  | some rt => rt.size
  | none => (0, 0)

/-- `RenderPort::getSizeOrigin` (fuel-indexed): an outport returns the
first non-null size origin among its connected ports (null if none); an
inport returns its own `sizeOrigin_` field. -/
def getSizeOrigin (st : GState) : Nat → Nat → Option Nat
  | 0, _ => none
  | fuel + 1, i =>
    match getRP st i with
    | none => none
    | some p =>
      if p.isOutport then p.connected.findSome? (fun j => getSizeOrigin st fuel j)
      else p.sizeOrigin

/-- `RenderPort::isActive`: target exists and is bound. -/
def isActive (st : GState) (i : Nat) : Bool :=
  match getRP st i with
  | some p =>
    match p.renderTarget with
    | some rt => rt.active
    | none => false
  | none => false

/-- `RenderPort::validateResult`: outport-only; sets the valid flag and
bumps the target's update counter; logs an error on an inport or without
a target. -/
def validateResult (st : GState) (i : Nat) : GState :=
  match getRP st i with
  | none => st
  | some p =>
    if p.isOutport then
      match p.renderTarget with
      | some rt =>
        setRP st i { p with validResult := true,
                            renderTarget := some { rt with numUpdates := rt.numUpdates + 1 } }
      | none => emitEv st (Event.logError ErrId.validateResultNoTarget)
    else emitEv st (Event.logError ErrId.validateResultOnInport)

/-- `RenderPort::invalidateResult`: outport-only; clears the valid flag. -/
def invalidateResult (st : GState) (i : Nat) : GState :=
  match getRP st i with
  | none => st
  | some p =>
    if p.isOutport then setRP st i { p with validResult := false }
    else emitEv st (Event.logError ErrId.invalidateResultOnInport)

/-- `RenderPort::activateTarget`: outport with a target — bind the target
and immediately `validateResult()`; otherwise a logged error, no state
change. (The debug label is GPU-side diagnostics and not modelled.) -/
def activateTarget (st : GState) (i : Nat) : GState :=
  match getRP st i with
  | none => st
  | some p =>
    if p.isOutport then
      match p.renderTarget with
      | some rt =>
        validateResult (setRP st i { p with renderTarget := some { rt with active := true } }) i
      | none => emitEv st (Event.logError ErrId.activateNoTarget)
    else emitEv st (Event.logError ErrId.activateTargetOnInport)

/-- `RenderPort::deactivateTarget`: outport with a target — unbind;
otherwise a logged error. -/
def deactivateTarget (st : GState) (i : Nat) : GState :=
  match getRP st i with
  | none => st
  | some p =>
    if p.isOutport then
      match p.renderTarget with
      | some rt => setRP st i { p with renderTarget := some { rt with active := false } }
      | none => emitEv st (Event.logError ErrId.deactivateNoTarget)
    else emitEv st (Event.logError ErrId.deactivateTargetOnInport)

/-- `RenderPort::clearTarget`: logged error on an inport or an inactive
outport; on an active outport only GPU state (`glClear`) is touched. -/
def clearTarget (st : GState) (i : Nat) : GState :=
  match getRP st i with
  | none => st
  | some p =>
    if !p.isOutport then emitEv st (Event.logError ErrId.clearTargetOnInport)
    else if !isActive st i then emitEv st (Event.logError ErrId.clearTargetInactive)
    else st

/-- `RenderPort::changeFormat`: outport-only (logged error otherwise);
replaces the target by a fresh one with the new formats resized to the old
size, records the formats, and requests invalidation. -/
def changeFormat (st : GState) (fuel i : Nat) (cf df : Int) : GState :=
  match getRP st i with
  | none => st
  | some p =>
    if !p.isOutport then emitEv st (Event.logError ErrId.changeFormatOnInport)
    else
      let s := getSize st fuel i
      let rt : RenderTarget :=
        { size := s, colorFormat := cf, depthFormat := df,
          numUpdates := 0, active := false, colorTex := none }
      emitEv (setRP st i { p with renderTarget := some rt }) (Event.invalidateNotify i)

/-- `RenderPort::setRenderTarget`: outport-only (logged error otherwise);
installs the externally supplied target and requests invalidation. -/
def setRenderTarget (st : GState) (i : Nat) (rt : Option RenderTarget) : GState :=
  match getRP st i with
  | none => st
  | some p =>
    if p.isOutport then emitEv (setRP st i { p with renderTarget := rt }) (Event.invalidateNotify i)
    else emitEv st (Event.logError ErrId.setRenderTargetOnInport)

/-- `RenderPort::resize`: on an outport — no-op at the current size,
logged rejection of `(0,0)`, otherwise resize the owned target, clear the
valid flag and record the size.  On an inport — record the size and, if
the inport holds a non-null size origin, notify every connected peer's
processor via `portResized`. -/
def resize (st : GState) (i : Nat) (newsize : IVec2) : GState :=
  match getRP st i with
  | none => st
  | some p =>
    if p.isOutport then
      if p.size = newsize then st
      else if newsize = ((0 : Int), (0 : Int)) then emitEv st (Event.logWarning ErrId.resizeInvalidSize)
      else
        setRP st i { p with
          renderTarget := p.renderTarget.map (fun rt => { rt with size := newsize }),
          validResult := false,
          size := newsize }
    else
      if p.sizeOrigin = none then setRP st i { p with size := newsize }
      else
        p.connected.foldl (fun s j => emitEv s (Event.portResizedNotify j newsize))
          (setRP st i { p with size := newsize })

/-- One iteration of the propagation loop in the inport branch of
`RenderPort::sizeOriginChanged`: recursively propagate to the connected
port `j` via `f` and, for a non-null origin, force `j` to this inport's
current size.  The accumulator carries the state and the list of inports
that have adopted the origin so far (instrumentation for the termination
analysis; it does not influence the state). -/
def soStep (f : GState → Nat → GState × List Nat) (so : Option Nat) (i : Nat)
    (acc : GState × List Nat) (j : Nat) : GState × List Nat :=
  (if so.isSome then
    match getRP (f acc.1 j).1 i with
    | some q => resize (f acc.1 j).1 j q.size
    | none => (f acc.1 j).1
  else (f acc.1 j).1, acc.2 ++ (f acc.1 j).2)

/-- `RenderPort::sizeOriginChanged` (fuel-indexed): an outport notifies
its processor and clears its valid flag; an inport returns at once when
the origin is unchanged (the termination condition), otherwise adopts the
origin and propagates to every connected port, resizing each to its own
current size when the new origin is non-null.  The second component lists
the inports that adopted the origin, in adoption order. -/
def sizeOriginChanged : Nat → GState → Nat → Option Nat → GState × List Nat
  | 0, st, _, _ => (st, [])
  | fuel + 1, st, i, so =>
    match getRP st i with
    | none => (st, [])
    | some p =>
      if p.isOutport then
        (setRP (emitEv st (Event.sizeOriginChangedNotify i)) i { p with validResult := false }, [])
      else if p.sizeOrigin = so then (st, [])
      else
        p.connected.foldl (soStep (fun s j => sizeOriginChanged fuel s j so) so i)
          (setRP st i { p with sizeOrigin := so }, [i])

/-- Modelled from the spec: the base connection predicate of
`Port::connect` / `Port::testConnectivity` (the `Port` base class is not
part of the excerpt) — direction compatibility, no self connection, no
duplicate connection, and multiplicity of the inport. -/
def basePortCompat (st : GState) (o i : Nat) : Bool :=
  match getRP st o, getRP st i with
  | some po, some pi =>
    po.isOutport && !pi.isOutport && decide (o ≠ i) && !po.connected.contains i &&
      (pi.connected.isEmpty || pi.allowMultiple)
  | _, _ => false

/-- Modelled from the spec: the state change of a successful base
`Port::connect` — each port is appended to the other's connection list. -/
def linkPorts (st : GState) (o i : Nat) : GState :=
  match getRP st o, getRP st i with
  | some po, some pi =>
    setRP (setRP st o { po with connected := po.connected ++ [i] }) i
      { pi with connected := pi.connected ++ [o] }
  | _, _ => st

/-- `RenderPort::connect` (called on the outport): on base success, run
`sizeOriginChanged` on the outport with the inport's origin (the outport
branch — processor notification plus valid-flag clear; fuel 1 suffices as
that branch never recurses) and, if the inport already carries a non-null
origin, ask the outport's processor to handle `portResized` with the
inport's current size. -/
def connect (st : GState) (o i : Nat) : GState × Bool :=
  if basePortCompat st o i then
    match getRP st i with
    | some pi =>
      (if pi.sizeOrigin.isSome then
        emitEv (sizeOriginChanged 1 (linkPorts st o i) o pi.sizeOrigin).1
          (Event.portResizedNotify o pi.size)
      else (sizeOriginChanged 1 (linkPorts st o i) o pi.sizeOrigin).1, true)
    | none => (st, false)
  else (st, false)

/-- Modelled from the spec: the state change of the base
`Port::disconnect` — each port is removed from the other's connection
list. -/
def unlinkPorts (st : GState) (o i : Nat) : GState :=
  match getRP st o, getRP st i with
  | some po, some pi =>
    setRP (setRP st o { po with connected := po.connected.erase i }) i
      { pi with connected := pi.connected.erase o }
  | _, _ => st

/-- `RenderPort::disconnect` (called with peer `other`): base unlink, then
on an outport — if the effective size origin changed, notify the
processor; always request invalidation of the peer. -/
def disconnect (st : GState) (fuel o other : Nat) : GState :=
  match getRP (unlinkPorts st o other) o with
  | none => unlinkPorts st o other
  | some po =>
    if po.isOutport then
      emitEv
        (if getSizeOrigin (unlinkPorts st o other) fuel o
            ≠ getSizeOrigin (unlinkPorts st o other) fuel other then
          emitEv (unlinkPorts st o other) (Event.sizeOriginChangedNotify o)
        else unlinkPorts st o other)
        (Event.invalidateNotify other)
    else unlinkPorts st o other

/-- `RenderPort::testConnectivity`: base check, then accept when the
candidate inport has no size origin yet or its origin equals this port's;
otherwise return the owning processor's `testSizeOrigin` verdict (the
processor override is abstract, passed as `tso`). -/
def testConnectivity (st : GState) (fuel : Nat) (tso : Nat → Option Nat → Bool)
    (this other : Nat) : Bool :=
  if !basePortCompat st this other then false
  else
    if getSizeOrigin st fuel other = none then true
    else if getSizeOrigin st fuel other = getSizeOrigin st fuel this then true
    else tso this (getSizeOrigin st fuel other)

/-- `tgt::clamp(v, 0, 1)` on an exact rational channel. -/
def clamp01 (q : Rat) : Rat := min 1 (max 0 q)

/-- Conversion of one floating-point channel in the readback path:
clamp to `[0,1]`, scale by 255, truncate to a byte. -/
def floatToByte (q : Rat) : Nat := (Int.floor (clamp01 q * 255)).toNat

/-- `RenderPort::getColorTexture` (const query). -/
def getColorTexture (st : GState) (fuel i : Nat) : Option Texture :=
  (getRenderTarget st fuel i).bind RenderTarget.colorTex

/-- `RenderPort::readColorBuffer`: errors without a texture or for a
non-`GL_RGBA` format or an unknown data type; 8-bit data passes through
unchanged, 16-bit channels are right-shifted by 8 bits, floating-point
channels are clamped to `[0,1]` and scaled to 255. -/
def readColorBuffer (st : GState) (fuel i : Nat) : Except String (List (Col4 Nat)) :=
  match getColorTexture st fuel i with
  | none => Except.error "RenderPort::readColorBuffer() called on an empty render port"
  | some tex =>
    if tex.format ≠ TexFormat.rgba then
      Except.error "RenderPort::readColorBuffer(): Saving render port to file currently only supported for GL_RGBA format"
    else
      match tex.data with
      | TexData.bytes pix => Except.ok pix
      | TexData.shorts pix =>
        Except.ok (pix.map (fun c => ⟨c.r >>> 8, c.g >>> 8, c.b >>> 8, c.a >>> 8⟩))
      | TexData.floats pix =>
        Except.ok (pix.map (fun c =>
          ⟨floatToByte c.r, floatToByte c.g, floatToByte c.b, floatToByte c.a⟩))
      | TexData.unknownType =>
        Except.error "RenderPort::readColorBuffer(): unknown data type"

/-- `PortGroup::activateTargets` for a group `g` (list of port indices):
each participating connected port (all of them with `ignoreConnectivity`)
is validated and contributes one draw-buffer slot; the final
`glDrawBuffers` call is recorded with the slot count. -/
def activateTargets (st : GState) (g : List Nat) (ignoreConnectivity : Bool) : GState :=
  if g.isEmpty then st
  else
    let acc := g.foldl
      (fun (a : GState × Nat) j =>
        if ignoreConnectivity || isConnected a.1 j then (validateResult a.1 j, a.2 + 1) else a)
      (st, 0)
    emitEv acc.1 (Event.drawBuffersBind acc.2)

/-- The shader define emitted for group position `i` mapped to compact
output index `t`. -/
def defineLine (i t : Nat) : String :=
  "#define OP" ++ toString i ++ " " ++ toString t ++ "\n"

/-- `PortGroup::generateHeader` loop: position `i`, next compact index
`t`; active ports emit a define and advance the compact index. -/
def genHeaderGo (st : GState) (ignoreConnectivity : Bool) : List Nat → Nat → Nat → String
  | [], _, _ => ""
  | j :: rest, i, t =>
    if ignoreConnectivity || isConnected st j then
      defineLine i t ++ genHeaderGo st ignoreConnectivity rest (i + 1) (t + 1)
    else genHeaderGo st ignoreConnectivity rest (i + 1) t

/-- `PortGroup::generateHeader`. -/
def generateHeader (st : GState) (g : List Nat) (ignoreConnectivity : Bool) : String :=
  genHeaderGo st ignoreConnectivity g 0 0

/-- The original-index / compact-index pairs of the active group members:
position `i` keeps its original index in the pair while being mapped to
the next compact zero-based output index; inactive members are skipped. -/
def compactPairs : List Bool → Nat → Nat → List (Nat × Nat)
  | [], _, _ => []
  | b :: rest, i, t =>
    if b then (i, t) :: compactPairs rest (i + 1) (t + 1)
    else compactPairs rest (i + 1) t

/-- Concatenation of a list of shader source lines. -/
def joinStrs : List String → String
  | [] => ""
  | s :: l => s ++ joinStrs l

/-- The direction and size-origin of port `j` (the data governing the
size-origin propagation), or `none` for a missing / non-render port. -/
def tag (st : GState) (j : Nat) : Option (Bool × Option Nat) :=
  (getRP st j).map (fun p => (p.isOutport, p.sizeOrigin))

/-- Whether a port object is an inport that has not yet adopted origin
`so` (the ports that can still trigger a propagation step). -/
def adoptPending (so : Option Nat) : PortObj → Bool
  | PortObj.render p => !p.isOutport && decide (p.sizeOrigin ≠ so)
  | PortObj.generic => false

/-- Number of inports in the graph that have not yet adopted origin
`so` — the decreasing measure of the propagation recursion. -/
def mismatchCount (st : GState) (so : Option Nat) : Nat :=
  st.ports.countP (adoptPending so)

/-- Number of render inports in the graph. -/
def inportCount (st : GState) : Nat :=
  st.ports.countP (fun ob =>
    match ob with
    | PortObj.render p => !p.isOutport
    | PortObj.generic => false)

/-- The size-origin propagation invariant of one `sizeOriginChanged` call
with origin `so` from state `s` to result `r`: the port count is
preserved; every port either keeps its direction and origin or is an
inport now holding `so`; the number of pending inports drops by exactly
the number of adoptions; every adopter was a pending inport of `s` and
ends holding `so`; and no inport adopts twice. -/
def SocInv (so : Option Nat) (s : GState) (r : GState × List Nat) : Prop :=
  r.1.ports.length = s.ports.length
  ∧ (∀ j, tag r.1 j = tag s j ∨ tag r.1 j = some (false, so))
  ∧ mismatchCount r.1 so + r.2.length = mismatchCount s so
  ∧ (∀ j ∈ r.2, ∃ b, tag s j = some (false, b) ∧ b ≠ so)
  ∧ (∀ j ∈ r.2, tag r.1 j = some (false, so))
  ∧ r.2.Nodup

/-- The accumulator invariant maintained along the propagation loop,
relative to the state `st0` at the start of the enclosing call. -/
def AccInv (so : Option Nat) (st0 : GState) (acc : GState × List Nat) : Prop :=
  acc.1.ports.length = st0.ports.length
  ∧ (∀ j, tag acc.1 j = tag st0 j ∨ tag acc.1 j = some (false, so))
  ∧ mismatchCount acc.1 so + acc.2.length = mismatchCount st0 so
  ∧ (∀ j ∈ acc.2, ∃ b, tag st0 j = some (false, b) ∧ b ≠ so)
  ∧ (∀ j ∈ acc.2, tag acc.1 j = some (false, so))
  ∧ acc.2.Nodup

/-! ## Concrete scenario states -/

/-- A fresh inport record with the given connections and size origin. -/
def inP (conn : List Nat) (so : Option Nat) : RenderPort :=
  { isOutport := false, connected := conn, renderTarget := none,
    validResult := false, size := (128, 128), sizeOrigin := so, allowMultiple := false }

/-- A fresh outport record with the given connections, target and valid
flag. -/
def outP (conn : List Nat) (rt : Option RenderTarget) (vr : Bool) : RenderPort :=
  { isOutport := true, connected := conn, renderTarget := rt,
    validResult := vr, size := (128, 128), sizeOrigin := none, allowMultiple := true }

/-- A fresh inport with the given connections and size origin. -/
def mkInport (conn : List Nat) (so : Option Nat) : PortObj :=
  PortObj.render (inP conn so)

/-- A fresh outport with the given connections, target and valid flag. -/
def mkOutport (conn : List Nat) (rt : Option RenderTarget) (vr : Bool) : PortObj :=
  PortObj.render (outP conn rt vr)

/-- A default-initialized render target (as allocated by `initialize`). -/
def mkTarget : RenderTarget :=
  { size := (128, 128), colorFormat := 0, depthFormat := 0,
    numUpdates := 0, active := false, colorTex := none }

/-- C1 scenario: a chain of three connected inports `0 – 1 – 2` sharing
the outport `3` (connected to inport `0`), no origin adopted yet. -/
def chainSt : GState :=
  ⟨[mkInport [1, 3] none, mkInport [0, 2] none, mkInport [1] none,
    mkOutport [0] (some mkTarget) false], []⟩

/-- C2 scenario: inport `0` connected first to render outport `1`
(valid result), inport `2` connected first to the non-render port `3`,
inport `4` unconnected, and inport `5` solely connected to outport `1`. -/
def valSt : GState :=
  ⟨[mkInport [1] none, mkOutport [0, 5] (some mkTarget) true,
    mkInport [3] none, PortObj.generic, mkInport [] none, mkInport [1] none], []⟩

/-- C3/C4/C9 scenario: outport `0` with a target, inport `1` unconnected. -/
def outSt : GState :=
  ⟨[mkOutport [] (some mkTarget) false, mkInport [] none,
    mkOutport [] none false], []⟩

/-- C5 counterexample scenario: unconnected outport `0` (derived origin
null) and unconnected inport `1` that already carries origin `1`. -/
def cSt5 : GState :=
  ⟨[mkOutport [] none false, mkInport [] (some 1)], []⟩

/-- C6 counterexample scenario: outport `0` connected to inport `1`
carrying origin `1`; inport `2` is unconnected with no origin. -/
def cSt6 : GState :=
  ⟨[mkOutport [1] (some mkTarget) true, mkInport [0] (some 1),
    mkInport [] none], []⟩

/-- C7 scenario: a `PortGroup` over outports `0` (connected), `1`
(disconnected) and `2` (connected); `3` and `4` are the downstream
inports. -/
def st7 : GState :=
  ⟨[mkOutport [3] (some mkTarget) false, mkOutport [] (some mkTarget) false,
    mkOutport [4] (some mkTarget) false, mkInport [0] none, mkInport [2] none], []⟩

/-- A render target whose color texture holds the given RGBA data. -/
def mkTexTarget (fmt : TexFormat) (d : TexData) : RenderTarget :=
  { mkTarget with colorTex := some { format := fmt, data := d } }

/-- C8 scenario: four outports whose targets hold an 8-bit, a 16-bit, a
floating-point and a non-RGBA color texture respectively. -/
def texSt : GState :=
  ⟨[mkOutport [] (some (mkTexTarget TexFormat.rgba
      (TexData.bytes [⟨1, 2, 3, 4⟩, ⟨250, 0, 128, 255⟩]))) true,
    mkOutport [] (some (mkTexTarget TexFormat.rgba
      (TexData.shorts [⟨65535, 256, 511, 77⟩]))) true,
    mkOutport [] (some (mkTexTarget TexFormat.rgba
      (TexData.floats [⟨(1 : Rat) / 2, -(3 : Rat), (7 : Rat) / 5, 1⟩]))) true,
    mkOutport [] (some (mkTexTarget TexFormat.nonRgba
      (TexData.bytes []))) true], []⟩

/-- C10 scenario: outport `0` connected to inports `1` (no origin) and
`2` (origin `2`); outport `3` is unconnected but its stored `sizeOrigin_`
field is non-null. -/
def derSt : GState :=
  ⟨[mkOutport [1, 2] none false, mkInport [0] none, mkInport [0] (some 2),
    PortObj.render { outP [] none false with sizeOrigin := some 9 }], []⟩

/-! ## Helper lemmas about the state store -/

theorem getRP_emitEv (st : GState) (e : Event) (j : Nat) :
    getRP (emitEv st e) j = getRP st j := rfl

theorem ports_emitEv (st : GState) (e : Event) : (emitEv st e).ports = st.ports := rfl

theorem events_setRP (st : GState) (i : Nat) (p : RenderPort) :
    (setRP st i p).events = st.events := rfl

theorem length_setRP (st : GState) (i : Nat) (p : RenderPort) :
    (setRP st i p).ports.length = st.ports.length := by
  simp [setRP]

theorem getRP_lt_length {st : GState} {i : Nat} {p : RenderPort} (h : getRP st i = some p) :
    i < st.ports.length := by
  unfold getRP at h
  rcases hg : st.ports.get? i with _ | ob
  · rw [hg] at h; exact absurd h (by simp)
  · exact (List.get?_eq_some.mp hg).1

theorem getRP_setRP_self {st : GState} {i : Nat} {p : RenderPort} (q : RenderPort)
    (h : getRP st i = some p) : getRP (setRP st i q) i = some q := by
  have hi := getRP_lt_length h
  unfold getRP setRP
  simp [List.get?_eq_getElem?, List.getElem?_set_eq_of_lt _ hi]

theorem getRP_setRP_ne (st : GState) (i j : Nat) (q : RenderPort) (h : j ≠ i) :
    getRP (setRP st i q) j = getRP st j := by
  unfold getRP setRP
  simp only [List.get?_eq_getElem?, List.getElem?_set_ne (Ne.symm h)]

theorem tag_emitEv (st : GState) (e : Event) (j : Nat) : tag (emitEv st e) j = tag st j := rfl

theorem tag_setRP_ne (st : GState) (i j : Nat) (q : RenderPort) (h : j ≠ i) :
    tag (setRP st i q) j = tag st j := by
  unfold tag
  rw [getRP_setRP_ne st i j q h]

theorem tag_setRP_same {st : GState} {i : Nat} {p : RenderPort} {q : RenderPort}
    (h : getRP st i = some p) (hq : q.isOutport = p.isOutport ∧ q.sizeOrigin = p.sizeOrigin)
    (j : Nat) : tag (setRP st i q) j = tag st j := by
  by_cases hji : j = i
  · subst hji
    unfold tag
    rw [getRP_setRP_self q h, h]
    simp [hq.1, hq.2]
  · exact tag_setRP_ne st i j q hji

/-! ## countP over a point update -/

theorem countP_set_same {α : Type} (f : α → Bool) :
    ∀ (l : List α) (i : Nat) (a b : α), l.get? i = some b → f a = f b →
      (l.set i a).countP f = l.countP f
  | [], i, _, _, hb, _ => by simp at hb
  | x :: xs, 0, a, b, hb, hf => by
    simp only [List.get?] at hb
    injection hb with hb
    subst hb
    simp [List.countP_cons, hf]
  | x :: xs, i + 1, a, b, hb, hf => by
    simp only [List.get?] at hb
    simp [List.set, List.countP_cons, countP_set_same f xs i a b hb hf]

theorem countP_set_flip {α : Type} (f : α → Bool) :
    ∀ (l : List α) (i : Nat) (a b : α), l.get? i = some b → f b = true → f a = false →
      (l.set i a).countP f + 1 = l.countP f
  | [], i, _, _, hb, _, _ => by simp at hb
  | x :: xs, 0, a, b, hb, hfb, hfa => by
    simp only [List.get?] at hb
    injection hb with hb
    subst hb
    simp [List.countP_cons, hfb, hfa]
  | x :: xs, i + 1, a, b, hb, hfb, hfa => by
    simp only [List.get?] at hb
    have ih := countP_set_flip f xs i a b hb hfb hfa
    simp only [List.set, List.countP_cons]
    omega

/-! ## Preservation lemmas for `resize` -/

theorem tag_foldl_portResized (sz : IVec2) (j : Nat) (l : List Nat) :
    ∀ s : GState,
      tag (l.foldl (fun s j => emitEv s (Event.portResizedNotify j sz)) s) j = tag s j := by
  induction l with
  | nil => intro s; rfl
  | cons x xs ih => intro s; rw [List.foldl_cons, ih, tag_emitEv]

theorem length_foldl_portResized (sz : IVec2) (l : List Nat) :
    ∀ s : GState,
      (l.foldl (fun s j => emitEv s (Event.portResizedNotify j sz)) s).ports.length
        = s.ports.length := by
  induction l with
  | nil => intro s; rfl
  | cons x xs ih => intro s; rw [List.foldl_cons, ih, ports_emitEv]

theorem resize_tag (st : GState) (k : Nat) (sz : IVec2) (j : Nat) :
    tag (resize st k sz) j = tag st j := by
  unfold resize
  split
  · rfl
  next p h =>
    split
    · split
      · rfl
      · split
        · exact tag_emitEv st _ j
        · refine tag_setRP_same h ⟨?_, ?_⟩ j <;> rfl
    · split
      · refine tag_setRP_same h ⟨?_, ?_⟩ j <;> rfl
      · rw [tag_foldl_portResized]
        refine tag_setRP_same h ⟨?_, ?_⟩ j <;> rfl

theorem resize_length (st : GState) (k : Nat) (sz : IVec2) :
    (resize st k sz).ports.length = st.ports.length := by
  unfold resize
  split
  · rfl
  next p h =>
    split
    · split
      · rfl
      · split
        · rfl
        · exact length_setRP st k _
    · split
      · exact length_setRP st k _
      · rw [length_foldl_portResized]
        exact length_setRP st k _

theorem get?_of_getRP {st : GState} {i : Nat} {p : RenderPort} (h : getRP st i = some p) :
    st.ports.get? i = some (PortObj.render p) := by
  unfold getRP at h
  rcases hg : st.ports.get? i with _ | ob
  · rw [hg] at h; exact absurd h (by simp)
  · rw [hg] at h
    cases ob with
    | render q =>
      simp only [Option.some.injEq] at h
      rw [h]
    | generic => exact absurd h (by simp)

theorem mismatchCount_emitEv (st : GState) (e : Event) (so : Option Nat) :
    mismatchCount (emitEv st e) so = mismatchCount st so := rfl

theorem mismatchCount_setRP_same {st : GState} {k : Nat} {p : RenderPort} (q : RenderPort)
    {so : Option Nat} (h : st.ports.get? k = some (PortObj.render p))
    (hq : adoptPending so (PortObj.render q) = adoptPending so (PortObj.render p)) :
    mismatchCount (setRP st k q) so = mismatchCount st so :=
  countP_set_same (adoptPending so) st.ports k (PortObj.render q) (PortObj.render p) h hq

theorem mismatchCount_setRP_flip {st : GState} {k : Nat} {p : RenderPort} (q : RenderPort)
    {so : Option Nat} (h : st.ports.get? k = some (PortObj.render p))
    (hp : adoptPending so (PortObj.render p) = true)
    (hq : adoptPending so (PortObj.render q) = false) :
    mismatchCount (setRP st k q) so + 1 = mismatchCount st so :=
  countP_set_flip (adoptPending so) st.ports k (PortObj.render q) (PortObj.render p) h hp hq

theorem mismatchCount_foldl_portResized (sz : IVec2) (so : Option Nat) (l : List Nat) :
    ∀ s : GState,
      mismatchCount (l.foldl (fun s j => emitEv s (Event.portResizedNotify j sz)) s) so
        = mismatchCount s so := by
  induction l with
  | nil => intro s; rfl
  | cons x xs ih => intro s; rw [List.foldl_cons, ih, mismatchCount_emitEv]

theorem resize_mismatchCount (st : GState) (k : Nat) (sz : IVec2) (so : Option Nat) :
    mismatchCount (resize st k sz) so = mismatchCount st so := by
  unfold resize
  split
  · rfl
  next p h =>
    have hk := get?_of_getRP h
    split
    · split
      · rfl
      · split
        · rfl
        · exact mismatchCount_setRP_same _ hk rfl
    · split
      · exact mismatchCount_setRP_same _ hk rfl
      · rw [mismatchCount_foldl_portResized]
        exact mismatchCount_setRP_same _ hk rfl

/-! ## The size-origin propagation invariant (claim C1) -/

theorem socInv_nil (so : Option Nat) (s : GState) : SocInv so s (s, []) :=
  ⟨rfl, fun _ => Or.inl rfl, by simp, by simp, by simp, List.nodup_nil⟩

theorem accInv_step {so : Option Nat} {st0 : GState}
    {f : GState → Nat → GState × List Nat}
    (hf : ∀ s j, SocInv so s (f s j)) (i : Nat)
    {acc : GState × List Nat} (ha : AccInv so st0 acc) (j : Nat) :
    AccInv so st0 (soStep f so i acc j) := by
  obtain ⟨hl, ht, hm, hpend, hdone, hnd⟩ := ha
  obtain ⟨hl', ht', hm', hpend', hdone', hnd'⟩ := hf acc.1 j
  unfold soStep
  set r := f acc.1 j with hr
  have hs2 : ∀ s2, (∀ x, tag s2 x = tag r.1 x) → s2.ports.length = r.1.ports.length →
      mismatchCount s2 so = mismatchCount r.1 so →
      AccInv so st0 (s2, acc.2 ++ r.2) := by
    intro s2 htg hlen hmm
    refine ⟨?_, ?_, ?_, ?_, ?_, ?_⟩
    · rw [hlen, hl', hl]
    · intro x
      rw [htg x]
      rcases ht' x with h1 | h1
      · rw [h1]; exact ht x
      · exact Or.inr h1
    · rw [hmm, List.length_append]
      omega
    · intro x hx
      rcases List.mem_append.mp hx with hx | hx
      · exact hpend x hx
      · obtain ⟨b, hb, hbne⟩ := hpend' x hx
        rcases ht x with h1 | h1
        · rw [h1] at hb; exact ⟨b, hb, hbne⟩
        · rw [h1] at hb
          injection hb with hb
          injection hb with _ hb
          exact absurd hb.symm hbne
    · intro x hx
      rw [htg x]
      rcases List.mem_append.mp hx with hx | hx
      · have := hdone x hx
        rcases ht' x with h1 | h1
        · rw [h1]; exact this
        · exact h1
      · exact hdone' x hx
    · refine List.Nodup.append hnd hnd' ?_
      intro x hx1 hx2
      have h1 := hdone x hx1
      obtain ⟨b, hb, hbne⟩ := hpend' x hx2
      rw [h1] at hb
      injection hb with hb
      injection hb with _ hb
      exact absurd hb.symm hbne
  split
  · -- non-null origin: the recursive step is followed by a forced resize
    split
    · exact hs2 _ (fun x => resize_tag _ _ _ x) (resize_length _ _ _)
        (resize_mismatchCount _ _ _ _)
    · exact hs2 _ (fun _ => rfl) rfl rfl
  · exact hs2 _ (fun _ => rfl) rfl rfl

theorem accInv_foldl {so : Option Nat} {st0 : GState}
    {f : GState → Nat → GState × List Nat}
    (hf : ∀ s j, SocInv so s (f s j)) (i : Nat) :
    ∀ (l : List Nat) (acc : GState × List Nat), AccInv so st0 acc →
      AccInv so st0 (l.foldl (soStep f so i) acc)
  | [], acc, ha => ha
  | x :: xs, acc, ha => by
    rw [List.foldl_cons]
    exact accInv_foldl hf i xs _ (accInv_step hf i ha x)

theorem soc_inv : ∀ (fuel : Nat) (st : GState) (i : Nat) (so : Option Nat),
    SocInv so st (sizeOriginChanged fuel st i so) := by
  intro fuel
  induction fuel with
  | zero => intro st i so; exact socInv_nil so st
  | succ fuel ih =>
    intro st i so
    unfold sizeOriginChanged
    split
    · exact socInv_nil so st
    next p h =>
      split
      next hout =>
        refine ⟨?_, ?_, ?_, by simp, by simp, List.nodup_nil⟩
        · exact length_setRP (emitEv st _) i _
        · intro j
          refine Or.inl ?_
          have h' : getRP (emitEv st (Event.sizeOriginChangedNotify i)) i = some p := h
          calc tag (setRP (emitEv st (Event.sizeOriginChangedNotify i)) i
                  { p with validResult := false }) j
              = tag (emitEv st (Event.sizeOriginChangedNotify i)) j := by
                refine tag_setRP_same h' ⟨?_, ?_⟩ j <;> rfl
            _ = tag st j := rfl
        · simp only [List.length_nil, Nat.add_zero]
          exact mismatchCount_setRP_same _ (get?_of_getRP h) rfl
      next hout =>
        have hout' : p.isOutport = false := by
          revert hout
          cases p.isOutport <;> simp
        split
        next heq => exact socInv_nil so st
        next hne =>
          have hpend : adoptPending so (PortObj.render p) = true := by
            simp [adoptPending, hout']
            exact hne
          have hq : adoptPending so
              (PortObj.render { p with sizeOrigin := so }) = false := by
            simp [adoptPending]
          have hflip := mismatchCount_setRP_flip { p with sizeOrigin := so }
            (get?_of_getRP h) hpend hq
          have hacc0 : AccInv so st (setRP st i { p with sizeOrigin := so }, [i]) := by
            refine ⟨length_setRP st i _, ?_, ?_, ?_, ?_, List.nodup_singleton i⟩
            · intro j
              by_cases hji : j = i
              · subst hji
                refine Or.inr ?_
                unfold tag
                rw [getRP_setRP_self _ h]
                simp [hout']
              · exact Or.inl (tag_setRP_ne st i j _ hji)
            · simpa using hflip
            · intro x hx
              simp only [List.mem_singleton] at hx
              subst hx
              refine ⟨p.sizeOrigin, ?_, hne⟩
              unfold tag
              rw [h]
              simp [hout']
            · intro x hx
              simp only [List.mem_singleton] at hx
              subst hx
              unfold tag
              rw [getRP_setRP_self _ h]
              simp [hout']
          exact accInv_foldl (fun s j => ih s j so) i p.connected _ hacc0

/-! ## Fuel independence of the propagation (termination) -/

theorem foldl_congr_inv {α β : Type} (g1 g2 : β → α → β) (P : β → Prop)
    (hpres : ∀ b a, P b → P (g1 b a))
    (hcong : ∀ b a, P b → g1 b a = g2 b a) :
    ∀ (l : List α) (b : β), P b → l.foldl g1 b = l.foldl g2 b
  | [], _, _ => rfl
  | x :: xs, b, hb => by
    rw [List.foldl_cons, List.foldl_cons, ← hcong b x hb]
    exact foldl_congr_inv g1 g2 P hpres hcong xs (g1 b x) (hpres b x hb)

theorem soStep_congr {f1 f2 : GState → Nat → GState × List Nat} (so : Option Nat) (i : Nat)
    (acc : GState × List Nat) (j : Nat) (h : f1 acc.1 j = f2 acc.1 j) :
    soStep f1 so i acc j = soStep f2 so i acc j := by
  unfold soStep
  rw [h]

theorem soStep_mismatch_le {f : GState → Nat → GState × List Nat} {so : Option Nat}
    (hf : ∀ s j, SocInv so s (f s j)) (i : Nat) (acc : GState × List Nat) (j : Nat) :
    mismatchCount (soStep f so i acc j).1 so ≤ mismatchCount acc.1 so := by
  have hle : mismatchCount (f acc.1 j).1 so ≤ mismatchCount acc.1 so := by
    have := (hf acc.1 j).2.2.1
    omega
  show mismatchCount (if so.isSome then _ else _) so ≤ _
  split
  · split
    · rw [resize_mismatchCount]; exact hle
    · exact hle
  · exact hle

theorem soc_fuel_stable :
    ∀ (k : Nat) (st : GState) (i : Nat) (so : Option Nat) (f1 f2 : Nat),
      mismatchCount st so < k → k ≤ f1 → k ≤ f2 →
      sizeOriginChanged f1 st i so = sizeOriginChanged f2 st i so := by
  intro k
  induction k with
  | zero => intro st i so f1 f2 hm; exact absurd hm (Nat.not_lt_zero _)
  | succ k ih =>
    intro st i so f1 f2 hm h1 h2
    obtain ⟨a, rfl⟩ : ∃ a, f1 = a + 1 := ⟨f1 - 1, by omega⟩
    obtain ⟨b, rfl⟩ : ∃ b, f2 = b + 1 := ⟨f2 - 1, by omega⟩
    show sizeOriginChanged (a + 1) st i so = sizeOriginChanged (b + 1) st i so
    unfold sizeOriginChanged
    split
    · rfl
    next p h =>
      split
      · rfl
      next hout =>
        have hout' : p.isOutport = false := by
          revert hout
          cases p.isOutport <;> simp
        split
        · rfl
        next hne =>
          have hpend : adoptPending so (PortObj.render p) = true := by
            simp [adoptPending, hout']
            exact hne
          have hq : adoptPending so
              (PortObj.render { p with sizeOrigin := so }) = false := by
            simp [adoptPending]
          have hflip := mismatchCount_setRP_flip { p with sizeOrigin := so }
            (get?_of_getRP h) hpend hq
          refine foldl_congr_inv _ _ (fun acc => mismatchCount acc.1 so < k) ?_ ?_
            p.connected _ ?_
          · intro acc x hacc
            have := soStep_mismatch_le (fun s j => soc_inv a s j so) i acc x
            omega
          · intro acc x hacc
            exact soStep_congr so i acc x
              (ih acc.1 x so a b hacc (by omega) (by omega))
          · show mismatchCount (setRP st i { p with sizeOrigin := so }) so < k
            omega

theorem tag_eq_some {st : GState} {j : Nat} {d : Bool} {b : Option Nat}
    (h : tag st j = some (d, b)) :
    ∃ p, getRP st j = some p ∧ p.isOutport = d ∧ p.sizeOrigin = b := by
  unfold tag at h
  rcases hg : getRP st j with _ | p
  · rw [hg] at h; exact absurd h (by simp)
  · rw [hg] at h
    simp only [Option.map_some', Option.some.injEq, Prod.mk.injEq] at h
    exact ⟨p, rfl, h.1, h.2⟩

theorem mismatchCount_le_inportCount (st : GState) (so : Option Nat) :
    mismatchCount st so ≤ inportCount st := by
  refine List.countP_mono_left ?_
  intro ob _ hob
  cases ob with
  | render p =>
    simp only [adoptPending, Bool.and_eq_true] at hob
    simpa using hob.1
  | generic => exact absurd hob (by simp [adoptPending])

/-- C1: size-origin propagation terminates — above the explicit bound
`mismatchCount st so + 1` the fuel is irrelevant (the recursion depth is
bounded, with the equal-origin early return as the termination
condition); the number of propagation (origin-adoption) calls is at most
the number `N` of pending connected inports, which is at most the number
of inports; the pending count drops by exactly the adoption count; no
inport adopts more than once; and every adopter is an inport that did not
carry the origin before and holds it afterwards. -/
theorem claim_C1_size_origin_propagation (st : GState) (i : Nat) (so : Option Nat)
    (fuel : Nat) (hfuel : mismatchCount st so + 1 ≤ fuel) :
    sizeOriginChanged fuel st i so
        = sizeOriginChanged (mismatchCount st so + 1) st i so
    ∧ (sizeOriginChanged fuel st i so).2.length ≤ mismatchCount st so
    ∧ mismatchCount st so ≤ inportCount st
    ∧ mismatchCount (sizeOriginChanged fuel st i so).1 so
        + (sizeOriginChanged fuel st i so).2.length = mismatchCount st so
    ∧ (sizeOriginChanged fuel st i so).2.Nodup
    ∧ (∀ j ∈ (sizeOriginChanged fuel st i so).2,
        (∃ p, getRP st j = some p ∧ p.isOutport = false ∧ p.sizeOrigin ≠ so)
        ∧ (∃ q, getRP (sizeOriginChanged fuel st i so).1 j = some q
            ∧ q.isOutport = false ∧ q.sizeOrigin = so)) := by
  obtain ⟨hl, ht, hm, hpend, hdone, hnd⟩ := soc_inv fuel st i so
  refine ⟨?_, by omega, mismatchCount_le_inportCount st so, hm, hnd, ?_⟩
  · exact soc_fuel_stable (mismatchCount st so + 1) st i so fuel
      (mismatchCount st so + 1) (by omega) hfuel le_rfl
  · intro j hj
    obtain ⟨b, hb, hbne⟩ := hpend j hj
    obtain ⟨p, hp, hpo, hps⟩ := tag_eq_some hb
    obtain ⟨q, hq, hqo, hqs⟩ := tag_eq_some (hdone j hj)
    exact ⟨⟨p, hp, hpo, by rw [hps]; exact hbne⟩, ⟨q, hq, hqo, hqs⟩⟩

theorem claim_C1_size_origin_propagation_witness :
    mismatchCount chainSt (some 7) + 1 ≤ 4
    ∧ (sizeOriginChanged 4 chainSt 0 (some 7)
          = sizeOriginChanged (mismatchCount chainSt (some 7) + 1) chainSt 0 (some 7)
      ∧ (sizeOriginChanged 4 chainSt 0 (some 7)).2.length ≤ mismatchCount chainSt (some 7)
      ∧ mismatchCount chainSt (some 7) ≤ inportCount chainSt
      ∧ mismatchCount (sizeOriginChanged 4 chainSt 0 (some 7)).1 (some 7)
          + (sizeOriginChanged 4 chainSt 0 (some 7)).2.length
            = mismatchCount chainSt (some 7)
      ∧ (sizeOriginChanged 4 chainSt 0 (some 7)).2.Nodup
      ∧ (∀ j ∈ (sizeOriginChanged 4 chainSt 0 (some 7)).2,
          (∃ p, getRP chainSt j = some p ∧ p.isOutport = false ∧ p.sizeOrigin ≠ some 7)
          ∧ (∃ q, getRP (sizeOriginChanged 4 chainSt 0 (some 7)).1 j = some q
              ∧ q.isOutport = false ∧ q.sizeOrigin = some 7))) :=
  ⟨by decide, claim_C1_size_origin_propagation chainSt 0 (some 7) 4 (by decide)⟩

/-- On the concrete chain all three connected inports adopt the fresh
origin, each exactly once and in propagation order. -/
theorem chain_adopts_all_inports :
    (sizeOriginChanged 4 chainSt 0 (some 7)).2 = [0, 1, 2] := by decide

/-! ## Claim C3: outport resize -/

/-- C3: resizing an outport to its current size is a complete no-op;
resizing to `(0,0)` is rejected with only a logged warning, the port
store untouched; resizing to a different nonzero size resizes the owned
target, clears the valid-result flag and records the new size, leaving
all other ports untouched. -/
theorem claim_C3_outport_resize (st : GState) (i : Nat) (p : RenderPort)
    (h : getRP st i = some p) (hout : p.isOutport = true) :
    resize st i p.size = st
    ∧ (p.size ≠ ((0 : Int), (0 : Int)) →
        resize st i ((0 : Int), (0 : Int))
          = emitEv st (Event.logWarning ErrId.resizeInvalidSize))
    ∧ (∀ newsize, newsize ≠ p.size → newsize ≠ ((0 : Int), (0 : Int)) →
        getRP (resize st i newsize) i
            = some { p with
                renderTarget := p.renderTarget.map (fun rt => { rt with size := newsize }),
                validResult := false, size := newsize }
          ∧ (∀ rt, p.renderTarget = some rt →
              (getRP (resize st i newsize) i).bind RenderPort.renderTarget
                = some { rt with size := newsize })
          ∧ (resize st i newsize).events = st.events
          ∧ (∀ j, j ≠ i → getRP (resize st i newsize) j = getRP st j)) := by
  refine ⟨?_, ?_, ?_⟩
  · unfold resize
    rw [h]
    simp [hout]
  · intro hne
    unfold resize
    rw [h]
    simp only [hout, if_true]
    rw [if_neg hne]
  · intro newsize hne h0
    have hne' : ¬(p.size = newsize) := fun hh => hne hh.symm
    have hres : resize st i newsize
        = setRP st i { p with
            renderTarget := p.renderTarget.map (fun rt => { rt with size := newsize }),
            validResult := false, size := newsize } := by
      unfold resize
      rw [h]
      simp only [hout, if_true]
      rw [if_neg hne', if_neg h0]
    rw [hres]
    refine ⟨getRP_setRP_self _ h, ?_, rfl, fun j hj => getRP_setRP_ne st i j _ hj⟩
    intro rt hrt
    rw [getRP_setRP_self _ h]
    simp [hrt]

theorem claim_C3_outport_resize_witness :
    getRP outSt 0 = some (outP [] (some mkTarget) false)
    ∧ (resize outSt 0 (128, 128) = outSt
      ∧ ((128, 128) ≠ (((0 : Int), (0 : Int)) : IVec2) →
          resize outSt 0 ((0 : Int), (0 : Int))
            = emitEv outSt (Event.logWarning ErrId.resizeInvalidSize))
      ∧ (∀ newsize, newsize ≠ ((128, 128) : IVec2) → newsize ≠ ((0 : Int), (0 : Int)) →
          getRP (resize outSt 0 newsize) 0
              = some
                { isOutport := true, connected := [],
                  renderTarget := (some mkTarget).map (fun rt => { rt with size := newsize }),
                  validResult := false, size := newsize, sizeOrigin := none,
                  allowMultiple := true }
            ∧ (∀ rt, (some mkTarget : Option RenderTarget) = some rt →
                (getRP (resize outSt 0 newsize) 0).bind RenderPort.renderTarget
                  = some { rt with size := newsize })
            ∧ (resize outSt 0 newsize).events = outSt.events
            ∧ (∀ j, j ≠ 0 → getRP (resize outSt 0 newsize) j = getRP outSt j))) :=
  ⟨by decide, claim_C3_outport_resize outSt 0 (outP [] (some mkTarget) false)
    (by decide) (by decide)⟩

/-! ## Claim C4: activateTarget validates, invalidateResult clears -/

/-- C4: on an outport with an allocated target, `activateTarget` binds
the target (active bit set, update counter bumped by the immediate
`validateResult`) and a subsequent `hasValidResult` is true; a following
`invalidateResult` makes `hasValidResult` false again. -/
theorem claim_C4_activate_then_valid (st : GState) (i : Nat) (p : RenderPort)
    (rt : RenderTarget) (h : getRP st i = some p) (hout : p.isOutport = true)
    (hrt : p.renderTarget = some rt) :
    hasValidResult (activateTarget st i) 1 i = true
    ∧ (∃ rt', getRenderTarget (activateTarget st i) 1 i = some rt'
        ∧ rt'.active = true ∧ rt'.numUpdates = rt.numUpdates + 1)
    ∧ hasValidResult (invalidateResult (activateTarget st i) i) 1 i = false := by
  have h1 : getRP (setRP st i { p with renderTarget := some { rt with active := true } }) i
      = some { p with renderTarget := some { rt with active := true } } :=
    getRP_setRP_self _ h
  have step : activateTarget st i
      = setRP (setRP st i { p with renderTarget := some { rt with active := true } }) i
          { p with
            validResult := true,
            renderTarget := some { rt with active := true, numUpdates := rt.numUpdates + 1 } } := by
    unfold activateTarget
    rw [h]
    simp only [hout, hrt, if_true]
    unfold validateResult
    have h1' := h1
    simp only [hout] at h1'
    rw [h1']
    simp [hout]
  have h2 : getRP (activateTarget st i) i
      = some
        { p with
          validResult := true,
          renderTarget := some { rt with active := true, numUpdates := rt.numUpdates + 1 } } := by
    rw [step]
    exact getRP_setRP_self _ h1
  refine ⟨?_, ?_, ?_⟩
  · unfold hasValidResult
    rw [h2]
    simp [hout]
  · refine ⟨{ rt with active := true, numUpdates := rt.numUpdates + 1 }, ?_, rfl, rfl⟩
    unfold getRenderTarget
    rw [h2]
    simp [hout]
  · have h3 : invalidateResult (activateTarget st i) i
        = setRP (activateTarget st i) i
            { p with
              validResult := false,
              renderTarget := some { rt with active := true, numUpdates := rt.numUpdates + 1 } } := by
      unfold invalidateResult
      rw [h2]
      simp [hout]
    rw [h3]
    unfold hasValidResult
    rw [getRP_setRP_self _ h2]
    simp [hout]

theorem claim_C4_activate_then_valid_witness :
    getRP outSt 0 = some (outP [] (some mkTarget) false)
    ∧ (hasValidResult (activateTarget outSt 0) 1 0 = true
      ∧ (∃ rt', getRenderTarget (activateTarget outSt 0) 1 0 = some rt'
          ∧ rt'.active = true ∧ rt'.numUpdates = mkTarget.numUpdates + 1)
      ∧ hasValidResult (invalidateResult (activateTarget outSt 0) 0) 1 0 = false) :=
  ⟨by decide, claim_C4_activate_then_valid outSt 0 (outP [] (some mkTarget) false)
    mkTarget (by decide) (by decide) (by decide)⟩

/-! ## Claim C2: inport hasValidResult delegates to the first connection -/

theorem hasValidResult_outport {st : GState} {j : Nat} {q : RenderPort}
    (hq : getRP st j = some q) (hqo : q.isOutport = true) (fuel : Nat) :
    hasValidResult st (fuel + 1) j = (q.renderTarget.isSome && q.validResult) := by
  unfold hasValidResult
  rw [hq]
  simp [hqo]

theorem hasValidResult_inport_step {st : GState} {i : Nat} {p : RenderPort} {j : Nat}
    {rest : List Nat} {q : RenderPort} (h : getRP st i = some p) (hin : p.isOutport = false)
    (hrest : p.connected = j :: rest) (hq : getRP st j = some q) (fuel : Nat) :
    hasValidResult st (fuel + 1) i = hasValidResult st fuel j := by
  conv_lhs => unfold hasValidResult
  rw [h]
  simp [hin, hrest, hq]

/-- C2: an inport's `hasValidResult` equals that of its first connected
port when that peer is a render outport; it is `false` when the inport is
unconnected or its first connected peer is not a render port; and after
disconnecting the sole outport behind the inport it is `false`. -/
theorem claim_C2_inport_hasValidResult (st : GState) (i : Nat) (p : RenderPort)
    (fuel : Nat) (h : getRP st i = some p) (hin : p.isOutport = false) :
    (p.connected = [] → hasValidResult st fuel i = false)
    ∧ (∀ j q, p.connected.head? = some j → getRP st j = some q → q.isOutport = true →
        hasValidResult st (fuel + 2) i = hasValidResult st (fuel + 2) j)
    ∧ (∀ j, p.connected.head? = some j → getRP st j = none →
        hasValidResult st (fuel + 1) i = false)
    ∧ (∀ o po, p.connected = [o] → getRP st o = some po → po.isOutport = true →
        hasValidResult (disconnect st fuel o i) (fuel + 1) i = false) := by
  refine ⟨?_, ?_, ?_, ?_⟩
  · intro hconn
    cases fuel with
    | zero => rfl
    | succ f =>
      unfold hasValidResult
      rw [h]
      simp [hin, hconn]
  · intro j q hhead hq hqo
    obtain ⟨rest, hrest⟩ : ∃ rest, p.connected = j :: rest := by
      cases hc : p.connected with
      | nil => rw [hc] at hhead; exact absurd hhead (by simp)
      | cons a l =>
        rw [hc] at hhead
        simp only [List.head?_cons, Option.some.injEq] at hhead
        exact ⟨l, by rw [hhead]⟩
    calc hasValidResult st (fuel + 2) i
        = hasValidResult st (fuel + 1) j :=
          hasValidResult_inport_step h hin hrest hq (fuel + 1)
      _ = (q.renderTarget.isSome && q.validResult) := hasValidResult_outport hq hqo fuel
      _ = hasValidResult st (fuel + 1 + 1) j := (hasValidResult_outport hq hqo (fuel + 1)).symm
      _ = hasValidResult st (fuel + 2) j := rfl
  · intro j hhead hnone
    obtain ⟨rest, hrest⟩ : ∃ rest, p.connected = j :: rest := by
      cases hc : p.connected with
      | nil => rw [hc] at hhead; exact absurd hhead (by simp)
      | cons a l =>
        rw [hc] at hhead
        simp only [List.head?_cons, Option.some.injEq] at hhead
        exact ⟨l, by rw [hhead]⟩
    unfold hasValidResult
    rw [h]
    simp [hin, hrest, hnone]
  · intro o po hconn ho hoo
    have hoi : o ≠ i := by
      intro he
      subst he
      rw [h] at ho
      injection ho with ho
      rw [ho] at hin
      rw [hin] at hoo
      exact absurd hoo (by simp)
    have hu : unlinkPorts st o i
        = setRP (setRP st o { po with connected := po.connected.erase i }) i
            { p with connected := p.connected.erase o } := by
      unfold unlinkPorts
      rw [ho, h]
    have herase : p.connected.erase o = [] := by
      rw [hconn]
      simp
    have hio : getRP (unlinkPorts st o i) i = some { p with connected := [] } := by
      rw [hu]
      have hmid : getRP (setRP st o { po with connected := po.connected.erase i }) i
          = some p := by
        rw [getRP_setRP_ne st o i _ (Ne.symm hoi)]
        exact h
      rw [getRP_setRP_self _ hmid, herase]
    have hg : getRP (disconnect st fuel o i) i = some { p with connected := [] } := by
      unfold disconnect
      split
      · exact hio
      · split
        · rw [getRP_emitEv]
          split
          · rw [getRP_emitEv]
            exact hio
          · exact hio
        · exact hio
    unfold hasValidResult
    rw [hg]
    simp [hin]

theorem claim_C2_inport_hasValidResult_witness :
    getRP valSt 0 = some (inP [1] none)
    ∧ (inP [1] none).isOutport = false
    ∧ (([1] : List Nat) = [] → hasValidResult valSt 1 0 = false)
    ∧ (∀ j q, ([1] : List Nat).head? = some j → getRP valSt j = some q →
        q.isOutport = true → hasValidResult valSt 3 0 = hasValidResult valSt 3 j)
    ∧ (∀ j, ([1] : List Nat).head? = some j → getRP valSt j = none →
        hasValidResult valSt 2 0 = false)
    ∧ (∀ o po, ([1] : List Nat) = [o] → getRP valSt o = some po → po.isOutport = true →
        hasValidResult (disconnect valSt 1 o 0) 2 0 = false) := by
  have hmain := claim_C2_inport_hasValidResult valSt 0 (inP [1] none)
    1 (by decide) (by decide)
  exact ⟨by decide, by decide, hmain.1, hmain.2.1, hmain.2.2.1, hmain.2.2.2⟩

/-! ## Claim C10: an outport's size origin is derived from its peers -/

theorem findSome?_congr {α β : Type} (f g : α → Option β) :
    ∀ l : List α, (∀ a ∈ l, f a = g a) → l.findSome? f = l.findSome? g
  | [], _ => rfl
  | x :: xs, h => by
    rw [List.findSome?_cons, List.findSome?_cons, h x (by simp)]
    cases g x with
    | none => exact findSome?_congr f g xs (fun a ha => h a (by simp [ha]))
    | some b => rfl

theorem getSizeOrigin_inport {st : GState} {j : Nat} {q : RenderPort}
    (hq : getRP st j = some q) (hqin : q.isOutport = false) (fuel : Nat) :
    getSizeOrigin st (fuel + 1) j = q.sizeOrigin := by
  unfold getSizeOrigin
  rw [hq]
  simp [hqin]

/-- C10: an outport's `getSizeOrigin` is derived, not stored — under
render-inport peers it equals the first non-null origin among the
connected peers in connection order (null when there is none), and an
unconnected outport reports null at every fuel, regardless of the value
of its own `sizeOrigin_` field (which the statement never consults). -/
theorem claim_C10_outport_derived_origin (st : GState) (fuel : Nat) (o : Nat)
    (po : RenderPort) (h : getRP st o = some po) (hout : po.isOutport = true)
    (hpeers : ∀ j ∈ po.connected, ∃ q, getRP st j = some q ∧ q.isOutport = false) :
    getSizeOrigin st (fuel + 2) o
      = po.connected.findSome? (fun j => (getRP st j).bind RenderPort.sizeOrigin)
    ∧ (po.connected = [] → ∀ f, getSizeOrigin st f o = none) := by
  constructor
  · show getSizeOrigin st (fuel + 1 + 1) o = _
    conv_lhs => unfold getSizeOrigin
    rw [h]
    simp only [hout, if_true]
    refine findSome?_congr _ _ po.connected ?_
    intro j hj
    obtain ⟨q, hq, hqin⟩ := hpeers j hj
    rw [getSizeOrigin_inport hq hqin fuel, hq]
    rfl
  · intro hconn f
    cases f with
    | zero => rfl
    | succ f' =>
      unfold getSizeOrigin
      rw [h]
      simp [hout, hconn]

theorem claim_C10_outport_derived_origin_witness :
    getRP derSt 0 = some (outP [1, 2] none false)
    ∧ (∀ j ∈ ([1, 2] : List Nat), ∃ q, getRP derSt j = some q ∧ q.isOutport = false)
    ∧ (getSizeOrigin derSt 2 0
        = ([1, 2] : List Nat).findSome? (fun j => (getRP derSt j).bind RenderPort.sizeOrigin)
      ∧ (([1, 2] : List Nat) = [] → ∀ f, getSizeOrigin derSt f 0 = none)) := by
  have hpeers : ∀ j ∈ ([1, 2] : List Nat), ∃ q, getRP derSt j = some q ∧ q.isOutport = false := by
    intro j hj
    simp only [List.mem_cons, List.not_mem_nil, or_false] at hj
    rcases hj with rfl | rfl
    · exact ⟨inP [0] none, by decide, by decide⟩
    · exact ⟨inP [0] (some 2), by decide, by decide⟩
  exact ⟨by decide, hpeers,
    claim_C10_outport_derived_origin derSt 0 0 (outP [1, 2] none false)
      (by decide) (by decide) hpeers⟩

/-- The unconnected outport `3` of `derSt` stores `sizeOrigin_ = some 9`
yet reports a null derived size origin. -/
theorem derSt_unconnected_reports_null :
    (getRP derSt 3).map RenderPort.sizeOrigin = some (some 9)
    ∧ getSizeOrigin derSt 5 3 = none := by decide

/-! ## Claim C5: testConnectivity and the size-origin rule -/

/-- C5 counterexample: the claim accepts whenever either side has no
size origin yet, but the code consults the processor override whenever
the candidate inport's origin is non-null and differs from this port's —
here this outport's derived origin is null, the candidate's is `some 1`,
the base check passes, and a rejecting `testSizeOrigin` override makes
`testConnectivity` false, where the claim requires true. -/
theorem claim_C5_counterexample :
    basePortCompat cSt5 0 1 = true
    ∧ getSizeOrigin cSt5 2 0 = none
    ∧ getSizeOrigin cSt5 2 1 = some 1
    ∧ testConnectivity cSt5 2 (fun _ _ => false) 0 1 = false := by decide

/-- C5 (amended): `testConnectivity` returns true exactly when the base
compatibility check passes and additionally the candidate inport has no
size origin yet or its origin equals this port's derived origin; in every
other case — candidate origin non-null and different from this port's,
including when this port has no origin yet — it returns the verdict of
the owning processor's `testSizeOrigin` override. -/
theorem claim_C5_testConnectivity_amended (st : GState) (fuel : Nat)
    (tso : Nat → Option Nat → Bool) (t o : Nat) (po : RenderPort)
    (ho : getRP st o = some po) (hoin : po.isOutport = false) :
    (testConnectivity st (fuel + 2) tso t o = true
      ↔ (basePortCompat st t o = true
          ∧ (po.sizeOrigin = none ∨ po.sizeOrigin = getSizeOrigin st (fuel + 2) t
              ∨ tso t po.sizeOrigin = true))) := by
  have hco : getSizeOrigin st (fuel + 2) o = po.sizeOrigin :=
    getSizeOrigin_inport ho hoin (fuel + 1)
  unfold testConnectivity
  rw [hco]
  by_cases hb : basePortCompat st t o = true
  · simp only [hb, Bool.not_true, Bool.false_eq_true, if_false, true_and]
    by_cases h1 : po.sizeOrigin = none
    · simp [h1]
    · simp only [h1, if_false, false_or]
      by_cases h2 : po.sizeOrigin = getSizeOrigin st (fuel + 2) t
      · simp [h2]
      · simp [h1, h2]
  · simp [hb]

theorem claim_C5_testConnectivity_amended_witness :
    getRP cSt5 1 = some (inP [] (some 1))
    ∧ (testConnectivity cSt5 2 (fun _ _ => false) 0 1 = true
        ↔ (basePortCompat cSt5 0 1 = true
            ∧ (some 1 = none ∨ some 1 = getSizeOrigin cSt5 2 0
                ∨ (fun (_ : Nat) (_ : Option Nat) => false) 0 (some 1) = true))) :=
  ⟨by decide, claim_C5_testConnectivity_amended cSt5 0 (fun _ _ => false) 0 1
    (inP [] (some 1)) (by decide) (by decide)⟩

/-! ## Claim C6: connect on an outport -/

/-- C6 counterexample: a successful `connect` does not propagate the
outport's size origin to the newly connected inport — here the outport's
derived origin is `some 1` both before and after the connection, yet the
new inport's stored origin remains null. -/
theorem claim_C6_counterexample :
    (connect cSt6 0 2).2 = true
    ∧ getSizeOrigin cSt6 2 0 = some 1
    ∧ getSizeOrigin (connect cSt6 0 2).1 2 0 = some 1
    ∧ (getRP (connect cSt6 0 2).1 2).map RenderPort.sizeOrigin = some none := by decide

/-- C6 (amended): on a successful `connect(inport)` on an outport, both
connection lists are extended, the inport's stored origin and size are
untouched; the outport's own `sizeOriginChanged` runs with the inport's
origin — its outport branch notifies the outport's owning processor and
clears the outport's valid-result flag — and if the inport already
carries a non-null origin the outport's processor is additionally asked
to handle `portResized` with the inport's current size. -/
theorem claim_C6_connect_amended (st : GState) (o i : Nat) (po pi : RenderPort)
    (ho : getRP st o = some po) (hi : getRP st i = some pi)
    (hb : basePortCompat st o i = true) :
    (connect st o i).2 = true
    ∧ getRP (connect st o i).1 o
        = some { po with connected := po.connected ++ [i], validResult := false }
    ∧ getRP (connect st o i).1 i
        = some { pi with connected := pi.connected ++ [o] }
    ∧ (connect st o i).1.events
        = st.events ++ [Event.sizeOriginChangedNotify o]
          ++ (if pi.sizeOrigin.isSome then [Event.portResizedNotify o pi.size] else []) := by
  have hb' := hb
  unfold basePortCompat at hb'
  rw [ho, hi] at hb'
  simp only [Bool.and_eq_true, decide_eq_true_eq] at hb'
  have hoo : po.isOutport = true := hb'.1.1.1.1
  have hne : o ≠ i := hb'.1.1.2
  have hlink : linkPorts st o i
      = setRP (setRP st o { po with connected := po.connected ++ [i] }) i
          { pi with connected := pi.connected ++ [o] } := by
    unfold linkPorts
    rw [ho, hi]
  have hgo : getRP (linkPorts st o i) o
      = some { po with connected := po.connected ++ [i] } := by
    rw [hlink, getRP_setRP_ne _ i o _ hne]
    exact getRP_setRP_self _ ho
  have hgi : getRP (linkPorts st o i) i
      = some { pi with connected := pi.connected ++ [o] } := by
    rw [hlink]
    have hmid : getRP (setRP st o { po with connected := po.connected ++ [i] }) i
        = some pi := by
      rw [getRP_setRP_ne st o i _ (Ne.symm hne)]
      exact hi
    exact getRP_setRP_self _ hmid
  have hsoc : sizeOriginChanged 1 (linkPorts st o i) o pi.sizeOrigin
      = (setRP (emitEv (linkPorts st o i) (Event.sizeOriginChangedNotify o)) o
          { po with connected := po.connected ++ [i], validResult := false }, []) := by
    unfold sizeOriginChanged
    rw [hgo]
    simp [hoo]
  have hev : (linkPorts st o i).events = st.events := by
    rw [hlink]
    rfl
  have hconn : connect st o i
      = (if pi.sizeOrigin.isSome then
          emitEv (setRP (emitEv (linkPorts st o i) (Event.sizeOriginChangedNotify o)) o
              { po with connected := po.connected ++ [i], validResult := false })
            (Event.portResizedNotify o pi.size)
        else
          setRP (emitEv (linkPorts st o i) (Event.sizeOriginChangedNotify o)) o
            { po with connected := po.connected ++ [i], validResult := false }, true) := by
    unfold connect
    rw [if_pos hb, hi]
    simp only [hsoc]
  have hgo' : getRP (setRP (emitEv (linkPorts st o i) (Event.sizeOriginChangedNotify o)) o
      { po with connected := po.connected ++ [i], validResult := false }) o
      = some { po with connected := po.connected ++ [i], validResult := false } := by
    have hmid : getRP (emitEv (linkPorts st o i) (Event.sizeOriginChangedNotify o)) o
        = some { po with connected := po.connected ++ [i] } := by
      rw [getRP_emitEv]
      exact hgo
    exact getRP_setRP_self _ hmid
  have hgi' : getRP (setRP (emitEv (linkPorts st o i) (Event.sizeOriginChangedNotify o)) o
      { po with connected := po.connected ++ [i], validResult := false }) i
      = some { pi with connected := pi.connected ++ [o] } := by
    rw [getRP_setRP_ne _ o i _ (Ne.symm hne), getRP_emitEv]
    exact hgi
  rw [hconn]
  by_cases hso : pi.sizeOrigin.isSome
  · simp only [hso, if_true]
    refine ⟨trivial, ?_, ?_, ?_⟩
    · rw [getRP_emitEv]
      exact hgo'
    · rw [getRP_emitEv]
      exact hgi'
    · show ((setRP (emitEv (linkPorts st o i) (Event.sizeOriginChangedNotify o)) o
          { po with connected := po.connected ++ [i], validResult := false }).events
            ++ [Event.portResizedNotify o pi.size]) = _
      rw [events_setRP]
      show ((linkPorts st o i).events ++ [Event.sizeOriginChangedNotify o])
          ++ [Event.portResizedNotify o pi.size] = _
      rw [hev]
  · simp only [hso, if_false]
    refine ⟨trivial, hgo', hgi', ?_⟩
    show (linkPorts st o i).events ++ [Event.sizeOriginChangedNotify o] = _
    rw [hev]
    simp

theorem claim_C6_connect_amended_witness :
    getRP cSt6 0 = some (outP [1] (some mkTarget) true)
    ∧ getRP cSt6 2 = some (inP [] none)
    ∧ basePortCompat cSt6 0 2 = true
    ∧ ((connect cSt6 0 2).2 = true
      ∧ getRP (connect cSt6 0 2).1 0
          = some { outP [1] (some mkTarget) true with
              connected := [1] ++ [2], validResult := false }
      ∧ getRP (connect cSt6 0 2).1 2
          = some { inP [] none with connected := [] ++ [0] }
      ∧ (connect cSt6 0 2).1.events
          = cSt6.events ++ [Event.sizeOriginChangedNotify 0]
            ++ (if (inP [] none).sizeOrigin.isSome then
                [Event.portResizedNotify 0 (inP [] none).size] else [])) :=
  ⟨by decide, by decide, by decide,
    claim_C6_connect_amended cSt6 0 2 (outP [1] (some mkTarget) true) (inP [] none)
      (by decide) (by decide) (by decide)⟩

/-! ## Claim C7: PortGroup header generation and draw-buffer binding -/

theorem genHeaderGo_eq (st : GState) (ign : Bool) :
    ∀ (l : List Nat) (i t : Nat),
      genHeaderGo st ign l i t
        = joinStrs ((compactPairs (l.map (fun j => ign || isConnected st j)) i t).map
            (fun it => defineLine it.1 it.2))
  | [], _, _ => rfl
  | j :: rest, i, t => by
    by_cases hc : (ign || isConnected st j) = true
    · have ih := genHeaderGo_eq st ign rest (i + 1) (t + 1)
      unfold genHeaderGo compactPairs
      simp only [List.map_cons]
      rw [if_pos hc, if_pos hc, ih]
      rfl
    · have ih := genHeaderGo_eq st ign rest (i + 1) t
      unfold genHeaderGo compactPairs
      simp only [List.map_cons]
      rw [if_neg hc, if_neg hc, ih]

/-- C7: `generateHeader` maps each active port of the group to a
`#define OP<originalIndex> <compactIndex>` line — the original position in
the group is kept in the macro name while the output index is compacted
over the active ports only, disconnected ports being skipped (general
characterization via `compactPairs`); on the concrete group
[connected, disconnected, connected] the header is exactly
`OP0 0` and `OP2 1`, and `activateTargets` binds exactly two draw
buffers. -/
theorem claim_C7_portgroup_header :
    (∀ (st : GState) (g : List Nat) (ign : Bool),
      generateHeader st g ign
        = joinStrs ((compactPairs (g.map (fun j => ign || isConnected st j)) 0 0).map
            (fun it => defineLine it.1 it.2)))
    ∧ compactPairs (([0, 1, 2] : List Nat).map (fun j => false || isConnected st7 j)) 0 0
        = [(0, 0), (2, 1)]
    ∧ generateHeader st7 [0, 1, 2] false = "#define OP0 0\n#define OP2 1\n"
    ∧ (activateTargets st7 [0, 1, 2] false).events
        = st7.events ++ [Event.drawBuffersBind 2] := by
  refine ⟨fun st g ign => genHeaderGo_eq st ign g 0 0, by decide, by decide, by decide⟩

/-! ## Claim C8: readColorBuffer conversions -/

theorem floor_255 : Int.floor ((255 : Rat)) = 255 := by
  have h : ((255 : Int) : Rat) = (255 : Rat) := by norm_num
  rw [← h, Int.floor_intCast]

theorem floatToByte_of_nonpos {q : Rat} (h : q ≤ 0) : floatToByte q = 0 := by
  unfold floatToByte clamp01
  rw [max_eq_left h, min_eq_right (by norm_num : (0 : Rat) ≤ 1)]
  norm_num

theorem floatToByte_of_one_le {q : Rat} (h : 1 ≤ q) : floatToByte q = 255 := by
  unfold floatToByte clamp01
  rw [max_eq_right (le_trans (by norm_num) h), min_eq_left h, one_mul, floor_255]
  rfl

theorem floatToByte_of_mem01 {q : Rat} (h0 : 0 ≤ q) (h1 : q ≤ 1) :
    floatToByte q = (Int.floor (q * 255)).toNat := by
  unfold floatToByte clamp01
  rw [max_eq_right h0, min_eq_right h1]

theorem floatToByte_le_255 (q : Rat) : floatToByte q ≤ 255 := by
  unfold floatToByte
  have h1 : clamp01 q ≤ 1 := min_le_left _ _
  have h2 : clamp01 q * 255 ≤ 255 := by
    calc clamp01 q * 255 ≤ 1 * 255 := by
          exact mul_le_mul_of_nonneg_right h1 (by norm_num)
      _ = 255 := by norm_num
  have h3 : Int.floor (clamp01 q * 255) ≤ (255 : Int) := by
    rw [← floor_255]
    exact Int.floor_le_floor h2
  calc (Int.floor (clamp01 q * 255)).toNat ≤ (255 : Int).toNat := Int.toNat_le_toNat h3
    _ = 255 := rfl

/-- C8: `readColorBuffer` raises the descriptive format error for any
non-`GL_RGBA` texture; an 8-bit source passes through unchanged; a 16-bit
source is converted by an arithmetic right shift of 8 bits per channel
(division by `2^8`); a floating-point source is converted per channel by
clamping to `[0,1]` and scaling to 255 (truncated to a byte): exactly
`⌊255·q⌋` on `[0,1]`, 0 below, 255 above, never exceeding 255. -/
theorem claim_C8_readColorBuffer (st : GState) (fuel i : Nat) (tex : Texture)
    (h : getColorTexture st fuel i = some tex) :
    (tex.format ≠ TexFormat.rgba →
      readColorBuffer st fuel i = Except.error
        "RenderPort::readColorBuffer(): Saving render port to file currently only supported for GL_RGBA format")
    ∧ (∀ pix, tex.format = TexFormat.rgba → tex.data = TexData.bytes pix →
        readColorBuffer st fuel i = Except.ok pix)
    ∧ (∀ pix, tex.format = TexFormat.rgba → tex.data = TexData.shorts pix →
        readColorBuffer st fuel i
          = Except.ok (pix.map (fun c =>
              ⟨c.r / 2 ^ 8, c.g / 2 ^ 8, c.b / 2 ^ 8, c.a / 2 ^ 8⟩)))
    ∧ (∀ pix, tex.format = TexFormat.rgba → tex.data = TexData.floats pix →
        readColorBuffer st fuel i
          = Except.ok (pix.map (fun c =>
              ⟨floatToByte c.r, floatToByte c.g, floatToByte c.b, floatToByte c.a⟩))
        ∧ (∀ q : Rat, q ≤ 0 → floatToByte q = 0)
        ∧ (∀ q : Rat, 1 ≤ q → floatToByte q = 255)
        ∧ (∀ q : Rat, 0 ≤ q → q ≤ 1 → floatToByte q = (Int.floor (q * 255)).toNat)
        ∧ (∀ q : Rat, floatToByte q ≤ 255)) := by
  refine ⟨?_, ?_, ?_, ?_⟩
  · intro hf
    unfold readColorBuffer
    rw [h]
    simp [hf]
  · intro pix hf hd
    unfold readColorBuffer
    rw [h]
    simp [hf, hd]
  · intro pix hf hd
    unfold readColorBuffer
    rw [h]
    simp [hf, hd, Nat.shiftRight_eq_div_pow]
  · intro pix hf hd
    refine ⟨?_, fun q hq => floatToByte_of_nonpos hq, fun q hq => floatToByte_of_one_le hq,
      fun q h0 h1 => floatToByte_of_mem01 h0 h1, floatToByte_le_255⟩
    unfold readColorBuffer
    rw [h]
    simp [hf, hd]

theorem claim_C8_readColorBuffer_witness :
    getColorTexture texSt 1 2 = some
      { format := TexFormat.rgba,
        data := TexData.floats [⟨(1 : Rat) / 2, -(3 : Rat), (7 : Rat) / 5, 1⟩] }
    ∧ ((TexFormat.rgba ≠ TexFormat.rgba →
        readColorBuffer texSt 1 2 = Except.error
          "RenderPort::readColorBuffer(): Saving render port to file currently only supported for GL_RGBA format")
      ∧ (∀ pix, TexFormat.rgba = TexFormat.rgba →
          TexData.floats [(⟨(1 : Rat) / 2, -(3 : Rat), (7 : Rat) / 5, 1⟩ : Col4 Rat)]
            = TexData.bytes pix →
          readColorBuffer texSt 1 2 = Except.ok pix)
      ∧ (∀ pix, TexFormat.rgba = TexFormat.rgba →
          TexData.floats [(⟨(1 : Rat) / 2, -(3 : Rat), (7 : Rat) / 5, 1⟩ : Col4 Rat)]
            = TexData.shorts pix →
          readColorBuffer texSt 1 2
            = Except.ok (pix.map (fun c =>
                ⟨c.r / 2 ^ 8, c.g / 2 ^ 8, c.b / 2 ^ 8, c.a / 2 ^ 8⟩)))
      ∧ (∀ pix, TexFormat.rgba = TexFormat.rgba →
          TexData.floats [(⟨(1 : Rat) / 2, -(3 : Rat), (7 : Rat) / 5, 1⟩ : Col4 Rat)]
            = TexData.floats pix →
          readColorBuffer texSt 1 2
            = Except.ok (pix.map (fun c =>
                ⟨floatToByte c.r, floatToByte c.g, floatToByte c.b, floatToByte c.a⟩))
          ∧ (∀ q : Rat, q ≤ 0 → floatToByte q = 0)
          ∧ (∀ q : Rat, 1 ≤ q → floatToByte q = 255)
          ∧ (∀ q : Rat, 0 ≤ q → q ≤ 1 → floatToByte q = (Int.floor (q * 255)).toNat)
          ∧ (∀ q : Rat, floatToByte q ≤ 255))) :=
  ⟨rfl, claim_C8_readColorBuffer texSt 1 2
    { format := TexFormat.rgba,
      data := TexData.floats [⟨(1 : Rat) / 2, -(3 : Rat), (7 : Rat) / 5, 1⟩] }
    rfl⟩

theorem floatToByte_half : floatToByte ((1 : Rat) / 2) = 127 := by
  rw [floatToByte_of_mem01 (by norm_num) (by norm_num)]
  have hf : Int.floor ((1 : Rat) / 2 * 255) = 127 := by
    rw [Int.floor_eq_iff]
    norm_num
  rw [hf]
  rfl

/-- Concrete readback values on `texSt`: 8-bit data round-trips, the
16-bit channels are right-shifted by 8, the float channels are clamped
and scaled, and the non-RGBA texture is a reported error. -/
theorem texSt_readback_values :
    readColorBuffer texSt 1 0 = Except.ok [⟨1, 2, 3, 4⟩, ⟨250, 0, 128, 255⟩]
    ∧ readColorBuffer texSt 1 1 = Except.ok [⟨255, 1, 1, 0⟩]
    ∧ readColorBuffer texSt 1 2 = Except.ok [⟨127, 0, 255, 255⟩]
    ∧ readColorBuffer texSt 1 3 = Except.error
        "RenderPort::readColorBuffer(): Saving render port to file currently only supported for GL_RGBA format" := by
  refine ⟨rfl, rfl, ?_, rfl⟩
  have h3 : readColorBuffer texSt 1 2
      = Except.ok [⟨floatToByte ((1 : Rat) / 2), floatToByte (-(3 : Rat)),
          floatToByte ((7 : Rat) / 5), floatToByte 1⟩] := rfl
  rw [h3, floatToByte_half, floatToByte_of_nonpos (by norm_num : -(3 : Rat) ≤ 0),
    floatToByte_of_one_le (by norm_num : (1 : Rat) ≤ (7 : Rat) / 5),
    floatToByte_of_one_le (le_refl (1 : Rat))]

/-! ## Claim C9: misuse errors are logged no-ops, queries degrade safely -/

/-- C9: every outport-only operation called on an inport (activateTarget,
deactivateTarget, validateResult, invalidateResult, changeFormat,
clearTarget, setRenderTarget) becomes a logged no-op leaving the port
store unchanged; activating an outport whose target was never allocated
and resizing an outport to the degenerate `(0,0)` size are likewise
logged no-ops; querying an unconnected inport for its target or result
returns the safe defaults `none` / `false`; and so does querying a
wrongly-connected inport — one whose first peer is not a render port
reports no valid result, and one none of whose peers is a render port
reports no target. -/
theorem claim_C9_misuse_errors (st : GState) (i : Nat) (p : RenderPort)
    (h : getRP st i = some p) (hin : p.isOutport = false) (cf df : Int)
    (rt : Option RenderTarget) (fuel : Nat) :
    activateTarget st i = emitEv st (Event.logError ErrId.activateTargetOnInport)
    ∧ deactivateTarget st i = emitEv st (Event.logError ErrId.deactivateTargetOnInport)
    ∧ validateResult st i = emitEv st (Event.logError ErrId.validateResultOnInport)
    ∧ invalidateResult st i = emitEv st (Event.logError ErrId.invalidateResultOnInport)
    ∧ changeFormat st fuel i cf df = emitEv st (Event.logError ErrId.changeFormatOnInport)
    ∧ clearTarget st i = emitEv st (Event.logError ErrId.clearTargetOnInport)
    ∧ setRenderTarget st i rt = emitEv st (Event.logError ErrId.setRenderTargetOnInport)
    ∧ (∀ k q, getRP st k = some q → q.isOutport = true → q.renderTarget = none →
        activateTarget st k = emitEv st (Event.logError ErrId.activateNoTarget))
    ∧ (∀ k q, getRP st k = some q → q.isOutport = true →
        q.size ≠ ((0 : Int), (0 : Int)) →
        resize st k ((0 : Int), (0 : Int))
          = emitEv st (Event.logWarning ErrId.resizeInvalidSize))
    ∧ (p.connected = [] →
        hasValidResult st fuel i = false ∧ getRenderTarget st fuel i = none)
    ∧ (∀ j rest, p.connected = j :: rest → getRP st j = none →
        hasValidResult st fuel i = false)
    ∧ ((∀ j ∈ p.connected, getRP st j = none) →
        getRenderTarget st fuel i = none) := by
  refine ⟨?_, ?_, ?_, ?_, ?_, ?_, ?_, ?_, ?_, ?_, ?_, ?_⟩
  · unfold activateTarget
    rw [h]
    simp [hin]
  · unfold deactivateTarget
    rw [h]
    simp [hin]
  · unfold validateResult
    rw [h]
    simp [hin]
  · unfold invalidateResult
    rw [h]
    simp [hin]
  · unfold changeFormat
    rw [h]
    simp [hin]
  · unfold clearTarget
    rw [h]
    simp [hin]
  · unfold setRenderTarget
    rw [h]
    simp [hin]
  · intro k q hq hqo hqt
    unfold activateTarget
    rw [hq]
    simp [hqo, hqt]
  · intro k q hq hqo hqs
    unfold resize
    rw [hq]
    simp only [hqo, if_true]
    rw [if_neg hqs]
  · intro hconn
    constructor
    · cases fuel with
      | zero => rfl
      | succ f =>
        unfold hasValidResult
        rw [h]
        simp [hin, hconn]
    · cases fuel with
      | zero => rfl
      | succ f =>
        unfold getRenderTarget
        rw [h]
        simp [hin, hconn]
  · intro j rest hconn hnone
    cases fuel with
    | zero => rfl
    | succ f =>
      unfold hasValidResult
      rw [h]
      simp [hin, hconn, hnone]
  · intro hall
    cases fuel with
    | zero => rfl
    | succ f =>
      unfold getRenderTarget
      rw [h]
      have hfind : p.connected.find?
          (fun j => ((getRP st j).map RenderPort.isOutport).getD false) = none := by
        rw [List.find?_eq_none]
        intro j hj
        rw [hall j hj]
        simp
      simp [hin, hfind]

theorem claim_C9_misuse_errors_witness :
    getRP valSt 2 = some (inP [3] none)
    ∧ (inP [3] none).isOutport = false
    ∧ (activateTarget valSt 2 = emitEv valSt (Event.logError ErrId.activateTargetOnInport)
      ∧ deactivateTarget valSt 2 = emitEv valSt (Event.logError ErrId.deactivateTargetOnInport)
      ∧ validateResult valSt 2 = emitEv valSt (Event.logError ErrId.validateResultOnInport)
      ∧ invalidateResult valSt 2 = emitEv valSt (Event.logError ErrId.invalidateResultOnInport)
      ∧ changeFormat valSt 1 2 0 0 = emitEv valSt (Event.logError ErrId.changeFormatOnInport)
      ∧ clearTarget valSt 2 = emitEv valSt (Event.logError ErrId.clearTargetOnInport)
      ∧ setRenderTarget valSt 2 none
          = emitEv valSt (Event.logError ErrId.setRenderTargetOnInport)
      ∧ (∀ k q, getRP valSt k = some q → q.isOutport = true → q.renderTarget = none →
          activateTarget valSt k = emitEv valSt (Event.logError ErrId.activateNoTarget))
      ∧ (∀ k q, getRP valSt k = some q → q.isOutport = true →
          q.size ≠ ((0 : Int), (0 : Int)) →
          resize valSt k ((0 : Int), (0 : Int))
            = emitEv valSt (Event.logWarning ErrId.resizeInvalidSize))
      ∧ (([3] : List Nat) = [] →
          hasValidResult valSt 1 2 = false ∧ getRenderTarget valSt 1 2 = none)
      ∧ (∀ j rest, ([3] : List Nat) = j :: rest → getRP valSt j = none →
          hasValidResult valSt 1 2 = false)
      ∧ ((∀ j ∈ ([3] : List Nat), getRP valSt j = none) →
          getRenderTarget valSt 1 2 = none)) :=
  ⟨by decide, by decide,
    claim_C9_misuse_errors valSt 2 (inP [3] none) (by decide) (by decide) 0 0 none 1⟩

/-- Concrete wrongly-connected queries: inport `2` of `valSt` is
connected only to the non-render port `3`, and both the result and the
target query degrade to their safe defaults. -/
theorem valSt_wrongly_connected_defaults :
    valSt.ports.get? 3 = some PortObj.generic
    ∧ hasValidResult valSt 2 2 = false
    ∧ getRenderTarget valSt 2 2 = none := by decide

end VoreenRP
